import Mathlib

/-!
Verification of the nearest-store ranking and route-annotation pipeline of
the Medical-Chatbot repository (src/map_agent_auto.py), shallowly embedded
in Lean 4. Numeric values are modelled as rationals; the floating-point
geodesic kernel of the geopy library is abstracted as a function parameter.
-/

namespace MedStoreMap

/-- A store record, mirroring the dict shape produced by
get_stores_with_location (src/map_agent_auto.py lines 25-42). -/
structure Store where
  store_id : Nat
  store_name : String
  address : String
  latitude : ℚ
  longitude : ℚ
  phone_number : String
deriving DecidableEq

/-- The hardcoded sample catalog from src/map_agent_auto.py lines 25-42. -/
def sample_stores : List Store :=
  [{ store_id := 1,
     store_name := "MedPlus Regency Orion Baner Street",
     address := "Shop No.15 Ground, Regency Orion, Soc, Mohan Nagar Co-Op Society, Baner, Pune",
     latitude := 18.5516660,
     longitude := 73.7688460,
     phone_number := "9226011653" },
   { store_id := 2,
     store_name := "MedPlus Baner Rd Baner",
     address := "Milkat No.O/A/01, Green Hills Apartment, Shop No.2, Baner Rd, opp. Pantaloons",
     latitude := 18.5580910,
     longitude := 73.7934390,
     phone_number := "4067006700" }]

/-- get_stores_with_location (lines 19-43): it sends a natural-language
query to the SQL agent, but the response (modelled as the String argument)
is discarded and the hardcoded sample list is returned. -/
def get_stores_with_location (sqlAgentResponse : String) : List Store :=
  sample_stores

/-- Rounding to the nearest integer with ties going to the even integer,
the rounding mode of Python round(). -/
def roundHalfEven (q : ℚ) : ℤ :=
  let f : ℤ := ⌊q⌋
  let frac : ℚ := q - f
  if frac < 1 / 2 then f
  else if 1 / 2 < frac then f + 1
  else if 2 ∣ f then f else f + 1

/-- Python round(x, 2): round to two decimal places, ties to even. -/
def round2 (q : ℚ) : ℚ :=
  (roundHalfEven (q * 100) : ℚ) / 100

/-- Python int() applied to a float: truncation toward zero. -/
def pyTrunc (q : ℚ) : ℤ :=
  if 0 ≤ q then ⌊q⌋ else ⌈q⌉

/-- Python slice l[:n] for an arbitrary (possibly negative) integer n:
a nonnegative stop takes the first n elements, a negative stop counts
from the end (clamped at zero). -/
def pySliceTo (l : List α) (n : ℤ) : List α :=
  if 0 ≤ n then l.take n.toNat else l.take ((l.length : ℤ) + n).toNat

/-- The error message geopy raises for an out-of-range latitude
(geopy.point.Point rejects latitudes outside [-90, 90]). -/
def geopy_lat_error : String :=
  "ValueError: Latitude must be in the [-90; 90] range."

/-- calculate_distance (lines 46-47): delegates to geopy geodesic. The
repository adds no validation of its own; the geopy library raises
ValueError when either latitude is outside [-90, 90] and silently
normalises any longitude, so longitude is never checked. The numeric
geodesic kernel (a floating-point iterative algorithm external to src/)
is abstracted as the parameter geod. -/
def calculate_distance (geod : ℚ → ℚ → ℚ → ℚ → ℚ)
    (lat1 lon1 lat2 lon2 : ℚ) : Except String ℚ :=
  if (-90 ≤ lat1 ∧ lat1 ≤ 90) ∧ (-90 ≤ lat2 ∧ lat2 ≤ 90) then
    Except.ok (geod lat1 lon1 lat2 lon2)
  else
    Except.error geopy_lat_error

/-- A store together with its derived distance_km field, as produced by
the loop in find_nearest_stores (lines 83-85). -/
structure RankedStore where
  store : Store
  distance_km : ℚ
deriving DecidableEq

/-- The sort key of stores.sort(key=lambda x: x[distance_km]) at line 88:
comparison is by distance_km only; store_id does not participate. -/
def distLE (a b : RankedStore) : Prop :=
  a.distance_km ≤ b.distance_km

instance : DecidableRel distLE :=
  fun a b => inferInstanceAs (Decidable (a.distance_km ≤ b.distance_km))

instance : IsTotal RankedStore distLE :=
  ⟨fun a b => le_total a.distance_km b.distance_km⟩

instance : IsTrans RankedStore distLE :=
  ⟨fun _ _ _ hab hbc => le_trans hab hbc⟩

/-- The distance-annotation loop of find_nearest_stores (lines 83-85):
each store gains distance_km = round(calculate_distance(...), 2); a geopy
ValueError propagates out of the loop. -/
def addDistances (geod : ℚ → ℚ → ℚ → ℚ → ℚ) (ulat ulon : ℚ) :
    List Store → Except String (List RankedStore)
  | [] => Except.ok []
  | s :: rest =>
    match calculate_distance geod ulat ulon s.latitude s.longitude with
    | Except.error e => Except.error e
    | Except.ok d =>
      match addDistances geod ulat ulon rest with
      | Except.error e => Except.error e
      | Except.ok tail => Except.ok ({ store := s, distance_km := round2 d } :: tail)

/-- The body of find_nearest_stores (lines 83-89) factored over an
arbitrary store list: annotate with distances, stable-sort ascending by
distance_km alone, then apply the Python slice stores[:limit]. -/
def rank (geod : ℚ → ℚ → ℚ → ℚ → ℚ) (ulat ulon : ℚ)
    (stores : List Store) (limit : ℤ) : Except String (List RankedStore) :=
  match addDistances geod ulat ulon stores with
  | Except.error e => Except.error e
  | Except.ok ranked => Except.ok (pySliceTo (ranked.insertionSort distLE) limit)

/-- find_nearest_stores (lines 79-89): rank applied to the catalog
returned by get_stores_with_location. -/
def find_nearest_stores (geod : ℚ → ℚ → ℚ → ℚ → ℚ)
    (sqlAgentResponse : String) (ulat ulon : ℚ) (limit : ℤ) :
    Except String (List RankedStore) :=
  rank geod ulat ulon (get_stores_with_location sqlAgentResponse) limit

/-- A constant geodesic kernel used to instantiate witnesses. -/
def geodConst : ℚ → ℚ → ℚ → ℚ → ℚ :=
  fun _ _ _ _ => 1

/-- The annotation a single pass of the loop at lines 83-85 attaches to a
store: distance_km = round(calculate_distance(...), 2). -/
def annotate (geod : ℚ → ℚ → ℚ → ℚ → ℚ) (ulat ulon : ℚ) (s : Store) : RankedStore :=
  { store := s, distance_km := round2 (geod ulat ulon s.latitude s.longitude) }

/-- A JSON value, modelling the parsed body of the OSRM response. -/
inductive Json where
  | null : Json
  | bool : Bool → Json
  | num : ℚ → Json
  | str : String → Json
  | arr : List Json → Json
  | obj : List (String × Json) → Json

/-- Dictionary access data[key]: defined only on objects. -/
def Json.lookup : Json → String → Option Json
  | Json.obj kvs, k => List.lookup k kvs
  | _, _ => none

/-- Numeric coercion: a Python arithmetic step such as x / 60 succeeds
only when the JSON value is a number. -/
def Json.asNum : Json → Option ℚ
  | Json.num q => some q
  | _ => none

/-- String coercion: polyline.decode requires a string geometry. -/
def Json.asStr : Json → Option String
  | Json.str s => some s
  | _ => none

/-- The observable outcome of the requests.get call at line 53 followed by
response.json() at line 54: the request may raise (network error or
timeout), the body may fail to parse as JSON, or a JSON document is
obtained. -/
inductive HttpOutcome where
  | netFailure : String → HttpOutcome
  | badJson : String → HttpOutcome
  | response : Json → HttpOutcome

/-- The dict returned by get_route_info: either the success payload of
lines 67-72 or the bare failure dict of line 76. -/
inductive RouteResult where
  | ok : ℤ → ℚ → List (ℚ × ℚ) → RouteResult
  | failed : RouteResult
deriving DecidableEq

/-- The success flag of the returned dict. -/
def RouteResult.success : RouteResult → Bool
  | RouteResult.ok _ _ _ => true
  | RouteResult.failed => false

/-- get_route_info (lines 50-76). The whole body sits in a bare
try/except, so every failure path — network error, malformed JSON,
missing or empty routes list, wrongly-typed route fields, or a polyline
decoding error — lands on the failure dict of line 76. The third-party
polyline decoder is abstracted as the parameter pdecode. On success the
duration is converted with int(seconds / 60) and the distance with
round(meters / 1000, 2). -/
def get_route_info (pdecode : String → Except String (List (ℚ × ℚ)))
    (outcome : HttpOutcome) : RouteResult :=
  match outcome with
  | HttpOutcome.netFailure _ => RouteResult.failed
  | HttpOutcome.badJson _ => RouteResult.failed
  | HttpOutcome.response data =>
    match data.lookup "routes" with
    | some (Json.arr (route :: _)) =>
      match (route.lookup "duration").bind Json.asNum,
            (route.lookup "distance").bind Json.asNum,
            (route.lookup "geometry").bind Json.asStr with
      | some dur, some dist, some geom =>
        match pdecode geom with
        | Except.ok pts => RouteResult.ok (pyTrunc (dur / 60)) (round2 (dist / 1000)) pts
        | Except.error _ => RouteResult.failed
      | _, _, _ => RouteResult.failed
    | _ => RouteResult.failed

/-- A well-formed OSRM response document with a single route. -/
def mkRouteResponse (dur dist : ℚ) (geom : String) : Json :=
  Json.obj [("routes", Json.arr
    [Json.obj [("duration", Json.num dur),
               ("distance", Json.num dist),
               ("geometry", Json.str geom)]])]

/-- The OSRM request URL built by the f-string at line 52. Coordinate
rendering (Python str applied to a float) is abstracted: the arguments
are the already-rendered coordinate strings. The longitude of each pair
comes first. -/
def osrm_url (user_lat user_lon store_lat store_lon mode : String) : String :=
  "http://router.project-osrm.org/route/v1/" ++ mode ++ "/" ++ user_lon ++ "," ++
    user_lat ++ ";" ++ store_lon ++ "," ++ store_lat ++ "?overview=full"

/-- The default of the mode parameter in the signature at line 50. -/
def default_mode : String := "driving"

/-- get_route_info called without an explicit mode, as create_map
(line 117) and main (line 223) do: the URL uses the default mode. -/
def osrm_url_default (user_lat user_lon store_lat store_lon : String) : String :=
  osrm_url user_lat user_lon store_lat store_lon default_mode

/-- The route-request decision of the marker loop in create_map
(lines 110-117): store i triggers a get_route_info call exactly when
show_routes is set and i < 3. Each list entry is (index, store, flag). -/
def create_map_route_flags (show_routes : Bool) (stores : List α) :
    List (ℕ × α × Bool) :=
  stores.enum.map (fun p => (p.1, p.2, show_routes && decide (p.1 < 3)))

/-- How many get_route_info calls the create_map marker loop issues. -/
def create_map_route_request_count (show_routes : Bool) (stores : List α) : ℕ :=
  ((create_map_route_flags show_routes stores).filter (fun p => p.2.2)).length

/-- The route lookups of the results panel in main (lines 221-223): the
loop body calls get_route_info once per listed store, unconditionally.
The per-call HTTP outcome is supplied by the environment env. -/
def panel_route_calls (pdecode : String → Except String (List (ℚ × ℚ)))
    (env : ℕ → HttpOutcome) (stores : List α) : List RouteResult :=
  (List.range stores.length).map (fun i => get_route_info pdecode (env i))

/-- A polyline decoder that always fails, for witnesses. -/
def pdecodeFail : String → Except String (List (ℚ × ℚ)) :=
  fun _ => Except.error "decode error"

/-- A polyline decoder returning an empty path, for witnesses. -/
def pdecodeEmpty : String → Except String (List (ℚ × ℚ)) :=
  fun _ => Except.ok []

/-- An HTTP environment in which every request times out, for witnesses. -/
def envFail : ℕ → HttpOutcome :=
  fun _ => HttpOutcome.netFailure "timeout"

/-- A store with the smaller store_id, used to exhibit tie behaviour. -/
def storeA : Store :=
  { store_id := 1, store_name := "A", address := "a",
    latitude := 10, longitude := 10, phone_number := "1" }

/-- A store with the larger store_id, used to exhibit tie behaviour. -/
def storeB : Store :=
  { store_id := 2, store_name := "B", address := "b",
    latitude := 20, longitude := 20, phone_number := "2" }

/-- Degrees to radians. -/
noncomputable def deg2rad (d : ℝ) : ℝ :=
  d * (Real.pi / 180)

/-- Modelled from the spec: the standard great-circle distance formula
(spherical law of cosines, mean Earth radius in kilometers) idealising
geodesic(a, b).kilometers over the reals. The floating-point ellipsoidal
kernel lives in the geopy library, outside src/. -/
noncomputable def great_circle_km (lat1 lon1 lat2 lon2 : ℝ) : ℝ :=
  6371.0088 * Real.arccos
    (Real.sin (deg2rad lat1) * Real.sin (deg2rad lat2) +
      Real.cos (deg2rad lat1) * Real.cos (deg2rad lat2) *
        Real.cos (deg2rad lon1 - deg2rad lon2))

/-! ### Helper lemmas -/

theorem addDistances_eq (geod : ℚ → ℚ → ℚ → ℚ → ℚ) (ulat ulon : ℚ)
    (stores : List Store) (hu : -90 ≤ ulat ∧ ulat ≤ 90)
    (hs : ∀ s ∈ stores, -90 ≤ s.latitude ∧ s.latitude ≤ 90) :
    addDistances geod ulat ulon stores =
      Except.ok (stores.map (annotate geod ulat ulon)) := by
  induction stores with
  | nil => rfl
  | cons s rest ih =>
    have hlat : -90 ≤ s.latitude ∧ s.latitude ≤ 90 := hs s (List.mem_cons_self s rest)
    have hrest : ∀ x ∈ rest, -90 ≤ x.latitude ∧ x.latitude ≤ 90 :=
      fun x hx => hs x (List.mem_cons_of_mem s hx)
    simp only [addDistances, calculate_distance, if_pos (And.intro hu hlat),
      ih hrest, List.map, annotate]

theorem rank_eq_of_addDistances (geod : ℚ → ℚ → ℚ → ℚ → ℚ) (ulat ulon : ℚ)
    (stores : List Store) (limit : ℤ) (ranked : List RankedStore)
    (hA : addDistances geod ulat ulon stores = Except.ok ranked) :
    rank geod ulat ulon stores limit =
      Except.ok (pySliceTo (ranked.insertionSort distLE) limit) := by
  simp only [rank, hA]

theorem pySliceTo_sublist (l : List α) (n : ℤ) : List.Sublist (pySliceTo l n) l := by
  unfold pySliceTo
  split <;> exact List.take_sublist _ _

theorem pyTrunc_eq_floor (q : ℚ) (h : 0 ≤ q) : pyTrunc q = ⌊q⌋ :=
  if_pos h

theorem countP_range_lt_three (n : ℕ) :
    (List.range n).countP (fun i => decide (i < 3)) = min 3 n := by
  induction n with
  | zero => rfl
  | succ n ih =>
    rw [List.range_succ, List.countP_append, ih]
    by_cases h : n < 3 <;> simp [List.countP_cons, h] <;> omega

theorem sample_stores_lat_valid :
    ∀ s ∈ sample_stores, -90 ≤ s.latitude ∧ s.latitude ≤ 90 := by
  intro s hmem
  simp only [sample_stores, List.mem_cons, List.not_mem_nil, or_false] at hmem
  rcases hmem with h | h <;> subst h <;> norm_num

/-! ### Claim theorems -/

/-- C1: for every origin coordinate, every store list (of records obeying
the section-3 invariants: valid latitudes, unique store_ids) and every
limit at least 1, rank returns a sequence sorted non-decreasingly by
distance_km, of length min(limit, number of stores), with no duplicate
store_id; for the empty store list the result is the empty sequence, not
an error. -/
theorem C1_rank_sorted_length_nodup (geod : ℚ → ℚ → ℚ → ℚ → ℚ)
    (ulat ulon : ℚ) (stores : List Store) (limit : ℤ)
    (hu : -90 ≤ ulat ∧ ulat ≤ 90)
    (hs : ∀ s ∈ stores, -90 ≤ s.latitude ∧ s.latitude ≤ 90)
    (hlim : 1 ≤ limit)
    (hids : (stores.map (fun s => s.store_id)).Nodup) :
    ∃ out, rank geod ulat ulon stores limit = Except.ok out ∧
      List.Sorted distLE out ∧
      out.length = min limit.toNat stores.length ∧
      (out.map (fun r => r.store.store_id)).Nodup ∧
      (stores = [] → out = []) := by
  have hA := addDistances_eq geod ulat ulon stores hu hs
  have hrank := rank_eq_of_addDistances geod ulat ulon stores limit _ hA
  refine ⟨_, hrank, ?_, ?_, ?_, ?_⟩
  · exact List.Pairwise.sublist (pySliceTo_sublist _ limit)
      (List.sorted_insertionSort distLE _)
  · have h0 : (0 : ℤ) ≤ limit := by omega
    simp only [pySliceTo, if_pos h0, List.length_take,
      List.length_insertionSort, List.length_map]
  · have hperm := (List.perm_insertionSort distLE
      (stores.map (annotate geod ulat ulon))).map (fun r => r.store.store_id)
    have hnodup : (((stores.map (annotate geod ulat ulon)).insertionSort
        distLE).map (fun r => r.store.store_id)).Nodup := by
      rw [hperm.nodup_iff, List.map_map]
      exact hids
    exact List.Nodup.sublist (List.Sublist.map _ (pySliceTo_sublist _ limit)) hnodup
  · intro hempty
    subst hempty
    simp [pySliceTo, List.insertionSort]

/-- C1 witness: the theorem applied to the hardcoded catalog with a
concrete geodesic kernel, origin (0, 0) and limit 1. -/
theorem C1_rank_sorted_length_nodup_witness :
    ∃ out, rank geodConst 0 0 sample_stores 1 = Except.ok out ∧
      List.Sorted distLE out ∧
      out.length = min (1 : ℤ).toNat sample_stores.length ∧
      (out.map (fun r => r.store.store_id)).Nodup ∧
      (sample_stores = [] → out = []) :=
  C1_rank_sorted_length_nodup geodConst 0 0 sample_stores 1
    (by norm_num)
    (by
      intro s hmem
      simp only [sample_stores, List.mem_cons, List.not_mem_nil, or_false] at hmem
      rcases hmem with h | h <;> subst h <;> norm_num)
    (by norm_num) (by decide)

/-- C2: get_route_info never raises: on a network error or timeout, on a
malformed JSON body, and on a response whose routes list is missing or
empty, it returns the failure dict (success=false) instead of propagating
an exception; on every outcome it returns some RouteResult. -/
theorem C2_get_route_info_fail_soft
    (pdecode : String → Except String (List (ℚ × ℚ)))
    (msg body : String) (data : Json) :
    get_route_info pdecode (HttpOutcome.netFailure msg) = RouteResult.failed ∧
    get_route_info pdecode (HttpOutcome.badJson body) = RouteResult.failed ∧
    (data.lookup "routes" = none →
      get_route_info pdecode (HttpOutcome.response data) = RouteResult.failed) ∧
    (data.lookup "routes" = some (Json.arr []) →
      get_route_info pdecode (HttpOutcome.response data) = RouteResult.failed) ∧
    (∀ outcome, get_route_info pdecode outcome = RouteResult.failed ∨
      ∃ d k p, get_route_info pdecode outcome = RouteResult.ok d k p) ∧
    RouteResult.failed.success = false := by
  refine ⟨rfl, rfl, ?_, ?_, ?_, rfl⟩
  · intro h
    simp [get_route_info, h]
  · intro h
    simp [get_route_info, h]
  · intro outcome
    cases outcome with
    | netFailure m => exact Or.inl rfl
    | badJson b => exact Or.inl rfl
    | response d =>
      simp only [get_route_info]
      repeat' split
      all_goals first
        | exact Or.inl rfl
        | exact Or.inr ⟨_, _, _, rfl⟩

/-- C2 witness: the theorem applied to a failing decoder, a timeout, a
malformed body and the empty JSON object (which has no routes key). -/
theorem C2_get_route_info_fail_soft_witness :
    get_route_info pdecodeFail (HttpOutcome.netFailure "timeout") = RouteResult.failed ∧
    get_route_info pdecodeFail (HttpOutcome.badJson "not json") = RouteResult.failed ∧
    get_route_info pdecodeFail (HttpOutcome.response (Json.obj [])) = RouteResult.failed := by
  have h := C2_get_route_info_fail_soft pdecodeFail "timeout" "not json" (Json.obj [])
  exact ⟨h.1, h.2.1, h.2.2.1 rfl⟩

/-- C5: on a well-formed routing response with nonnegative duration, the
result is success with duration_minutes = floor(seconds / 60) and
distance_km = round(meters / 1000, 2); in particular duration 600 and
distance 5000 give 10 minutes and 5.0 km. -/
theorem C5_get_route_info_success
    (pdecode : String → Except String (List (ℚ × ℚ)))
    (dur dist : ℚ) (g : String) (pts : List (ℚ × ℚ))
    (hdur : 0 ≤ dur) (hp : pdecode g = Except.ok pts) :
    get_route_info pdecode (HttpOutcome.response (mkRouteResponse dur dist g)) =
      RouteResult.ok ⌊dur / 60⌋ (round2 (dist / 1000)) pts ∧
    get_route_info pdecode (HttpOutcome.response (mkRouteResponse 600 5000 g)) =
      RouteResult.ok 10 5 pts := by
  have hgen : ∀ du di : ℚ, get_route_info pdecode
      (HttpOutcome.response (mkRouteResponse du di g)) =
      RouteResult.ok (pyTrunc (du / 60)) (round2 (di / 1000)) pts := by
    intro du di
    simp [get_route_info, mkRouteResponse, Json.lookup, List.lookup,
      Json.asNum, Json.asStr, hp]
  constructor
  · rw [hgen dur dist, pyTrunc_eq_floor _ (by positivity)]
  · rw [hgen 600 5000]
    norm_num [pyTrunc, round2, roundHalfEven]

/-- C5 witness: the theorem applied to a decoder that decodes the empty
geometry string to the empty path. -/
theorem C5_get_route_info_success_witness :
    get_route_info pdecodeEmpty (HttpOutcome.response (mkRouteResponse 600 5000 "")) =
      RouteResult.ok 10 5 [] :=
  (C5_get_route_info_success pdecodeEmpty 600 5000 "" [] (by norm_num) rfl).2

/-- C8: the single routing request is an HTTP GET whose URL places each
longitude before its latitude, carries overview=full, and whose mode
defaults to driving when not supplied. -/
theorem C8_osrm_url_structure (ulat ulon slat slon : String) :
    osrm_url_default ulat ulon slat slon = osrm_url ulat ulon slat slon "driving" ∧
    (∀ mode : String, osrm_url ulat ulon slat slon mode =
      "http://router.project-osrm.org/route/v1/" ++ mode ++ "/" ++ ulon ++ "," ++
        ulat ++ ";" ++ slon ++ "," ++ slat ++ "?overview=full") :=
  ⟨rfl, fun _ => rfl⟩

/-- C9: the great-circle distance is symmetric in its two valid coordinate
arguments and vanishes when both arguments coincide. -/
theorem C9_distance_symm_self_zero (lat1 lon1 lat2 lon2 : ℝ)
    (h1 : -90 ≤ lat1 ∧ lat1 ≤ 90) (h2 : -180 ≤ lon1 ∧ lon1 ≤ 180)
    (h3 : -90 ≤ lat2 ∧ lat2 ≤ 90) (h4 : -180 ≤ lon2 ∧ lon2 ≤ 180) :
    great_circle_km lat1 lon1 lat2 lon2 = great_circle_km lat2 lon2 lat1 lon1 ∧
    great_circle_km lat1 lon1 lat1 lon1 = 0 := by
  constructor
  · unfold great_circle_km
    have hc : Real.cos (deg2rad lon1 - deg2rad lon2) =
        Real.cos (deg2rad lon2 - deg2rad lon1) := by
      rw [show deg2rad lon1 - deg2rad lon2 = -(deg2rad lon2 - deg2rad lon1) by ring,
        Real.cos_neg]
    have harg : Real.sin (deg2rad lat1) * Real.sin (deg2rad lat2) +
        Real.cos (deg2rad lat1) * Real.cos (deg2rad lat2) *
          Real.cos (deg2rad lon1 - deg2rad lon2) =
        Real.sin (deg2rad lat2) * Real.sin (deg2rad lat1) +
        Real.cos (deg2rad lat2) * Real.cos (deg2rad lat1) *
          Real.cos (deg2rad lon2 - deg2rad lon1) := by
      rw [hc]
      ring
    rw [harg]
  · unfold great_circle_km
    rw [sub_self, Real.cos_zero, mul_one]
    have hone : Real.sin (deg2rad lat1) * Real.sin (deg2rad lat1) +
        Real.cos (deg2rad lat1) * Real.cos (deg2rad lat1) = 1 := by
      rw [← Real.sin_sq_add_cos_sq (deg2rad lat1)]
      ring
    rw [hone, Real.arccos_one, mul_zero]

/-- C9 witness: symmetry at the concrete valid pair (0, 0), (45, 90) and
vanishing at (0, 0). -/
theorem C9_distance_symm_self_zero_witness :
    great_circle_km 0 0 45 90 = great_circle_km 45 90 0 0 ∧
    great_circle_km 0 0 0 0 = 0 :=
  C9_distance_symm_self_zero 0 0 45 90
    (by norm_num) (by norm_num) (by norm_num) (by norm_num)

/-- C10: the catalog discards the SQL agent response and always returns
the fixed two-element list with store_ids 1 and 2, so find_nearest_stores
is a function of the origin and limit alone, independent of the database
reply; two runs with the same arguments coincide. -/
theorem C10_catalog_fixed (geod : ℚ → ℚ → ℚ → ℚ → ℚ) (resp1 resp2 : String)
    (ulat ulon : ℚ) (limit : ℤ) :
    get_stores_with_location resp1 = sample_stores ∧
    sample_stores.map (fun s => s.store_id) = [1, 2] ∧
    find_nearest_stores geod resp1 ulat ulon limit =
      find_nearest_stores geod resp2 ulat ulon limit :=
  ⟨rfl, rfl, rfl⟩

/-- C3 counterexample: find_nearest_stores with limit = 0 returns the
empty list and with limit = -1 returns a one-element list (Python slice
semantics drop the last element); no InvalidArgument error exists and
nothing is raised. -/
theorem C3_no_invalid_argument_cex :
    find_nearest_stores geodConst "any response" 0 0 0 = Except.ok [] ∧
    (find_nearest_stores geodConst "any response" 0 0 (-1)).map List.length =
      Except.ok 1 := by
  have hA := addDistances_eq geodConst 0 0 sample_stores (by norm_num)
    sample_stores_lat_valid
  constructor
  · have hrank := rank_eq_of_addDistances geodConst 0 0 sample_stores 0 _ hA
    simp only [find_nearest_stores, get_stores_with_location, hrank]
    simp [pySliceTo]
  · have hrank := rank_eq_of_addDistances geodConst 0 0 sample_stores (-1) _ hA
    simp only [find_nearest_stores, get_stores_with_location, hrank]
    have hneg : ¬ (0 : ℤ) ≤ -1 := by norm_num
    have hlen : sample_stores.length = 2 := rfl
    simp only [pySliceTo, if_neg hneg, Except.map, List.length_take,
      List.length_insertionSort, List.length_map, hlen]
    norm_num

/-- C3 amended: find_nearest_stores does not validate limit; a limit of 0
returns the empty list and a negative limit returns the sorted list with
its last abs(limit) entries dropped (Python slice semantics), with no
error in either case. -/
theorem C3_nonpositive_limit_returns (geod : ℚ → ℚ → ℚ → ℚ → ℚ)
    (ulat ulon : ℚ) (stores : List Store) (limit : ℤ)
    (hu : -90 ≤ ulat ∧ ulat ≤ 90)
    (hs : ∀ s ∈ stores, -90 ≤ s.latitude ∧ s.latitude ≤ 90)
    (hlim : limit ≤ 0) :
    (limit = 0 → rank geod ulat ulon stores limit = Except.ok []) ∧
    (limit < 0 → ∃ out, rank geod ulat ulon stores limit = Except.ok out ∧
      out.length = ((stores.length : ℤ) + limit).toNat) := by
  have hA := addDistances_eq geod ulat ulon stores hu hs
  have hrank := rank_eq_of_addDistances geod ulat ulon stores limit _ hA
  constructor
  · intro h
    subst h
    rw [hrank]
    simp [pySliceTo]
  · intro h
    refine ⟨_, hrank, ?_⟩
    have hneg : ¬ (0 : ℤ) ≤ limit := by omega
    simp only [pySliceTo, if_neg hneg, List.length_take,
      List.length_insertionSort, List.length_map]
    omega

/-- C3 amended witness: the amended theorem applied to the catalog with
limit = -1. -/
theorem C3_nonpositive_limit_returns_witness :
    (((-1) : ℤ) = 0 → rank geodConst 0 0 sample_stores (-1) = Except.ok []) ∧
    (((-1) : ℤ) < 0 → ∃ out, rank geodConst 0 0 sample_stores (-1) = Except.ok out ∧
      out.length = ((sample_stores.length : ℤ) + (-1)).toNat) :=
  C3_nonpositive_limit_returns geodConst 0 0 sample_stores (-1)
    (by norm_num) sample_stores_lat_valid (by norm_num)

/-- C4 counterexample: two stores at the same distance, listed with the
larger store_id first, keep that order in the output of rank; the claimed
store_id-ascending tie-break does not happen. -/
theorem C4_no_store_id_tiebreak_cex :
    rank geodConst 0 0 [storeB, storeA] 5 = Except.ok
      [{ store := storeB, distance_km := 1 }, { store := storeA, distance_km := 1 }] ∧
    ({ store := storeB, distance_km := 1 } : RankedStore).distance_km =
      ({ store := storeA, distance_km := 1 } : RankedStore).distance_km ∧
    storeA.store_id < storeB.store_id := by
  refine ⟨?_, rfl, by norm_num [storeA, storeB]⟩
  have hA := addDistances_eq geodConst 0 0 [storeB, storeA] (by norm_num)
    (by
      intro s hmem
      simp only [List.mem_cons, List.not_mem_nil, or_false] at hmem
      rcases hmem with h | h <;> subst h <;> norm_num [storeA, storeB])
  have h1 : round2 1 = 1 := by norm_num [round2, roundHalfEven]
  have hmap : [storeB, storeA].map (annotate geodConst 0 0) =
      [{ store := storeB, distance_km := 1 }, { store := storeA, distance_km := 1 }] := by
    simp [annotate, geodConst, h1]
  rw [rank_eq_of_addDistances geodConst 0 0 [storeB, storeA] 5 _ hA, hmap]
  have hsort : List.insertionSort distLE
      [{ store := storeB, distance_km := 1 }, { store := storeA, distance_km := 1 }] =
      [{ store := storeB, distance_km := 1 }, { store := storeA, distance_km := 1 }] := by
    simp [List.insertionSort, List.orderedInsert, distLE]
  rw [hsort]
  simp [pySliceTo, List.take_of_length_le]

/-- C4 amended: rank computes distance_km for every store, stable-sorts
ascending by distance_km alone — ties keep the input order and store_id
plays no part in the key — then truncates by the Python slice; the output
is a pure function of the inputs. -/
theorem C4_stable_sort_by_distance (geod : ℚ → ℚ → ℚ → ℚ → ℚ)
    (ulat ulon : ℚ) (stores : List Store) (limit : ℤ)
    (hu : -90 ≤ ulat ∧ ulat ≤ 90)
    (hs : ∀ s ∈ stores, -90 ≤ s.latitude ∧ s.latitude ≤ 90) :
    rank geod ulat ulon stores limit = Except.ok
      (pySliceTo ((stores.map (annotate geod ulat ulon)).insertionSort distLE) limit) ∧
    List.Sorted distLE ((stores.map (annotate geod ulat ulon)).insertionSort distLE) ∧
    ((stores.map (annotate geod ulat ulon)).insertionSort distLE).Perm
      (stores.map (annotate geod ulat ulon)) ∧
    (∀ a b : RankedStore, a.distance_km = b.distance_km →
      List.Sublist [a, b] (stores.map (annotate geod ulat ulon)) →
      List.Sublist [a, b] ((stores.map (annotate geod ulat ulon)).insertionSort distLE)) ∧
    (stores.map (annotate geod ulat ulon)).map (fun r => r.store) = stores := by
  have hA := addDistances_eq geod ulat ulon stores hu hs
  refine ⟨rank_eq_of_addDistances geod ulat ulon stores limit _ hA,
    List.sorted_insertionSort distLE _,
    List.perm_insertionSort distLE _,
    ?_, ?_⟩
  · intro a b hab hsub
    exact List.pair_sublist_insertionSort hab.le hsub
  · rw [List.map_map]
    exact List.map_id ..

/-- C4 amended witness: the amended theorem applied to the tie input of
the counterexample. -/
theorem C4_stable_sort_by_distance_witness :
    rank geodConst 0 0 [storeB, storeA] 5 = Except.ok
      (pySliceTo (([storeB, storeA].map (annotate geodConst 0 0)).insertionSort distLE) 5) ∧
    ([storeB, storeA].map (annotate geodConst 0 0)).map (fun r => r.store) =
      [storeB, storeA] := by
  have h := C4_stable_sort_by_distance geodConst 0 0 [storeB, storeA] 5
    (by norm_num)
    (by
      intro s hmem
      simp only [List.mem_cons, List.not_mem_nil, or_false] at hmem
      rcases hmem with hh | hh <;> subst hh <;> norm_num [storeA, storeB])
  exact ⟨h.1, h.2.2.2.2⟩

/-- C6 counterexample: with routes shown, a 10-store ranked list triggers
3 route requests from the create_map marker loop but a further 10 from
the results panel in main, so the query issues 13 requests, not 3. -/
theorem C6_route_fanout_cex :
    create_map_route_request_count true (List.range 10) = 3 ∧
    (panel_route_calls pdecodeFail envFail (List.range 10)).length = 10 ∧
    create_map_route_request_count true (List.range 10) +
      (panel_route_calls pdecodeFail envFail (List.range 10)).length ≠ 3 := by
  refine ⟨by decide, by decide, by decide⟩

/-- C6 amended: create_map requests routes only for ranked indices below
3 when show_routes is set (min(3, n) requests; later markers carry no
route annotation), but main additionally issues one request per listed
store in the results panel, so a query issues min(3, n) + n requests in
total. -/
theorem C6_route_fanout_policy {α : Type} (sr : Bool) (stores : List α)
    (pdecode : String → Except String (List (ℚ × ℚ))) (env : ℕ → HttpOutcome) :
    create_map_route_request_count sr stores =
      (if sr then min 3 stores.length else 0) ∧
    (∀ (i : ℕ) (a : α) (b : Bool), (i, a, b) ∈ create_map_route_flags sr stores →
      3 ≤ i → b = false) ∧
    (panel_route_calls pdecode env stores).length = stores.length := by
  refine ⟨?_, ?_, ?_⟩
  · unfold create_map_route_request_count create_map_route_flags
    rw [← List.countP_eq_length_filter, List.countP_map]
    cases sr with
    | false => simp
    | true =>
      have hcomp : ((fun p : ℕ × α × Bool => p.2.2) ∘
          (fun p : ℕ × α => (p.1, p.2, true && decide (p.1 < 3)))) =
          ((fun i => decide (i < 3)) ∘ Prod.fst) := by
        funext p
        simp
      rw [hcomp, ← List.countP_map, List.enum_map_fst, countP_range_lt_three]
      simp
  · intro i a b hmem h3
    unfold create_map_route_flags at hmem
    rcases List.mem_map.mp hmem with ⟨p, hp, heq⟩
    simp only [Prod.mk.injEq] at heq
    rcases heq with ⟨hi, _, hb⟩
    subst hi
    rw [← hb]
    have hlt : ¬ (p.1 < 3) := by omega
    simp [hlt]
  · unfold panel_route_calls
    rw [List.length_map, List.length_range]

/-- C6 amended witness: the amended theorem applied to a 10-element
ranked list with a timing-out environment; index 3 carries no route
request. -/
theorem C6_route_fanout_policy_witness :
    create_map_route_request_count true (List.range 10) =
      (if true then min 3 (List.range 10).length else 0) ∧
    (panel_route_calls pdecodeFail envFail (List.range 10)).length =
      (List.range 10).length ∧
    (false : Bool) = false := by
  have h := C6_route_fanout_policy true (List.range 10) pdecodeFail envFail
  exact ⟨h.1, h.2.2, h.2.1 3 3 false (by decide) (by decide)⟩

/-- C7 counterexample: a longitude of 200 degrees, far outside
[-180, 180], is accepted by calculate_distance and a distance is
computed; no InvalidCoordinate error is raised at the boundary. -/
theorem C7_no_longitude_check_cex :
    calculate_distance geodConst 0 200 18 73 = Except.ok 1 ∧
    ¬ ((200 : ℚ) ≤ 180) := by
  have hcond : ((-90 ≤ (0 : ℚ) ∧ (0 : ℚ) ≤ 90) ∧
      (-90 ≤ (18 : ℚ) ∧ (18 : ℚ) ≤ 90)) := by norm_num
  constructor
  · show calculate_distance geodConst 0 200 18 73 = Except.ok 1
    exact if_pos hcond
  · norm_num

/-- C7 amended: the repository performs no coordinate validation of its
own and defines no InvalidCoordinate error; the geopy library raises
ValueError when a latitude is outside [-90, 90] (and rank propagates it
for a non-empty store list), while an out-of-range longitude is accepted
and a distance is computed. -/
theorem C7_latitude_only_validation (geod : ℚ → ℚ → ℚ → ℚ → ℚ)
    (lat1 lon1 lat2 lon2 : ℚ) :
    (¬ ((-90 ≤ lat1 ∧ lat1 ≤ 90) ∧ (-90 ≤ lat2 ∧ lat2 ≤ 90)) →
      calculate_distance geod lat1 lon1 lat2 lon2 = Except.error geopy_lat_error) ∧
    (((-90 ≤ lat1 ∧ lat1 ≤ 90) ∧ (-90 ≤ lat2 ∧ lat2 ≤ 90)) →
      calculate_distance geod lat1 lon1 lat2 lon2 =
        Except.ok (geod lat1 lon1 lat2 lon2)) ∧
    (∀ (stores : List Store) (limit : ℤ), stores ≠ [] →
      ¬ (-90 ≤ lat1 ∧ lat1 ≤ 90) →
      rank geod lat1 lon1 stores limit = Except.error geopy_lat_error) := by
  refine ⟨fun h => if_neg h, fun h => if_pos h, ?_⟩
  intro stores limit hne hlat
  cases stores with
  | nil => exact absurd rfl hne
  | cons s rest =>
    have hneg : ¬ ((-90 ≤ lat1 ∧ lat1 ≤ 90) ∧
        (-90 ≤ s.latitude ∧ s.latitude ≤ 90)) := fun hc => hlat hc.1
    simp [rank, addDistances, calculate_distance, if_neg hneg]

/-- C7 amended witness: latitude 100 is rejected with the geopy error and
propagates through rank on the catalog, while valid latitudes compute a
distance. -/
theorem C7_latitude_only_validation_witness :
    calculate_distance geodConst 100 0 0 0 = Except.error geopy_lat_error ∧
    calculate_distance geodConst 0 0 0 0 = Except.ok (geodConst 0 0 0 0) ∧
    rank geodConst 100 0 sample_stores 5 = Except.error geopy_lat_error := by
  have h := C7_latitude_only_validation geodConst 100 0 0 0
  have h2 := C7_latitude_only_validation geodConst 0 0 0 0
  refine ⟨h.1 (by norm_num), h2.2.1 (by norm_num), ?_⟩
  exact h.2.2 sample_stores 5 (by simp [sample_stores]) (by norm_num)

end MedStoreMap
